import Mathlib

/-!
Verification development for the Fuelio → Lubelogger import script
(`main.py`).  The definitions below are a shallow embedding of the
script's pure core: the Fuelio row filter (`filter_fuelio_fillups`),
the record converter (`lubelogger_converter`) and the reconciliation
routine (`process_fillups`), together with models of the Python
library primitives they use (`datetime.strptime`/`strftime` for the
format strings appearing in the script, `int()`, `float()`,
`textwrap.dedent`, `str.strip`).

Modelling conventions:

* Python machine floats are modelled exactly, as a decimal
  mantissa/exponent pair: the script's only use of `float` is
  `int(float(s))`, and no behaviour of interest
  depends on IEEE rounding.  Literals whose magnitude reaches the
  float overflow range, as well as `inf`/`nan` spellings, are mapped
  to a parse failure, because at the sole use site `int(...)` raises
  on those values just as `float(...)` raises on malformed ones.
* Python exceptions are modelled with `Except PyErr`; distinct Python
  exception classes that the script never distinguishes are collapsed
  onto the nearest `PyErr` constructor.
* Python `set` values are modelled as duplicate-free lists; iteration
  order of a hash set is arbitrary, so every set-level statement below
  is phrased via membership, which is order independent.
-/

set_option maxRecDepth 8192

namespace Fuelio

/-! ### Python `str` helpers -/

/-- Characters treated as whitespace by Python's `str.strip()` (ASCII part). -/
def pySpaceChar (c : Char) : Bool :=
  c = ' ' || c = '\t' || c = '\n' || c = '\r' || c = '\x0b' || c = '\x0c'

/-- Python `str.strip()`. -/
def pyStrip (s : String) : String :=
  ⟨((s.toList.dropWhile pySpaceChar).reverse.dropWhile pySpaceChar).reverse⟩

/-- Numeric value of a decimal digit character. -/
def digitVal (c : Char) : Nat := c.toNat - 48

/-! ### `datetime.strptime(_, "%Y-%m-%d %H:%M")`

CPython's `_strptime` compiles the format to a regular expression:
`%Y ↦ \d\d\d\d`, `%m ↦ 1[0-2]|0[1-9]|[1-9]`, `%d ↦ 3[01]|[12]\d|0[1-9]|[1-9]`,
`%H ↦ 2[0-3]|[0-1]\d|\d`, `%M ↦ [0-5]\d|\d`, literals unchanged,
then requires the match to consume the whole input (otherwise
"unconverted data remains") and finally validates the result by
constructing a `datetime`, which checks the day against the month
length and the year against `MINYEAR = 1`.  Each component function
below returns the list of regex-alternative matches in priority
order, and the scanner does the backtracking search a regex engine
would do.  The format's literal separators are non-digits while every
alternative consumes digits only, so the widths of all components but
the final minutes are forced; requiring the leftover to be empty at
the end is therefore equivalent to CPython's first-match-then-check
behaviour. -/

/-- A parsed wall-clock timestamp (what the script extracts from `%Y-%m-%d %H:%M`). -/
structure PyDateTime where
  year : Nat
  month : Nat
  day : Nat
  hour : Nat
  minute : Nat
deriving DecidableEq, Repr

/-- `%Y`: exactly four digits. -/
def yearAlts : List Char → List (Nat × List Char)
  | c1 :: c2 :: c3 :: c4 :: rest =>
    if c1.isDigit ∧ c2.isDigit ∧ c3.isDigit ∧ c4.isDigit then
      [(digitVal c1 * 1000 + digitVal c2 * 100 + digitVal c3 * 10 + digitVal c4, rest)]
    else []
  | _ => []

/-- `%m`: `1[0-2]|0[1-9]|[1-9]`, alternatives in regex priority order. -/
def monthAlts : List Char → List (Nat × List Char)
  | c1 :: c2 :: rest =>
    (if c1 = '1' ∧ '0' ≤ c2 ∧ c2 ≤ '2' then [(10 + digitVal c2, rest)] else []) ++
    (if c1 = '0' ∧ '1' ≤ c2 ∧ c2 ≤ '9' then [(digitVal c2, rest)] else []) ++
    (if '1' ≤ c1 ∧ c1 ≤ '9' then [(digitVal c1, c2 :: rest)] else [])
  | [c1] => if '1' ≤ c1 ∧ c1 ≤ '9' then [(digitVal c1, [])] else []
  | [] => []

/-- `%d`: `3[01]|[12]\d|0[1-9]|[1-9]`, alternatives in regex priority order. -/
def dayAlts : List Char → List (Nat × List Char)
  | c1 :: c2 :: rest =>
    (if c1 = '3' ∧ ('0' ≤ c2 ∧ c2 ≤ '1') then [(30 + digitVal c2, rest)] else []) ++
    (if ('1' ≤ c1 ∧ c1 ≤ '2') ∧ c2.isDigit then [(digitVal c1 * 10 + digitVal c2, rest)] else []) ++
    (if c1 = '0' ∧ '1' ≤ c2 ∧ c2 ≤ '9' then [(digitVal c2, rest)] else []) ++
    (if '1' ≤ c1 ∧ c1 ≤ '9' then [(digitVal c1, c2 :: rest)] else [])
  | [c1] => if '1' ≤ c1 ∧ c1 ≤ '9' then [(digitVal c1, [])] else []
  | [] => []

/-- `%H`: `2[0-3]|[0-1]\d|\d`, alternatives in regex priority order. -/
def hourAlts : List Char → List (Nat × List Char)
  | c1 :: c2 :: rest =>
    (if c1 = '2' ∧ ('0' ≤ c2 ∧ c2 ≤ '3') then [(20 + digitVal c2, rest)] else []) ++
    (if ('0' ≤ c1 ∧ c1 ≤ '1') ∧ c2.isDigit then [(digitVal c1 * 10 + digitVal c2, rest)] else []) ++
    (if c1.isDigit then [(digitVal c1, c2 :: rest)] else [])
  | [c1] => if c1.isDigit then [(digitVal c1, [])] else []
  | [] => []

/-- `%M`: `[0-5]\d|\d`, alternatives in regex priority order. -/
def minuteAlts : List Char → List (Nat × List Char)
  | c1 :: c2 :: rest =>
    (if ('0' ≤ c1 ∧ c1 ≤ '5') ∧ c2.isDigit then [(digitVal c1 * 10 + digitVal c2, rest)] else []) ++
    (if c1.isDigit then [(digitVal c1, c2 :: rest)] else [])
  | [c1] => if c1.isDigit then [(digitVal c1, [])] else []
  | [] => []

/-- Consume one literal character of the format string. -/
def matchLit (c : Char) : List Char → Option (List Char)
  | x :: rest => if x = c then some rest else none
  | [] => none

/-- Backtracking scan of the compiled `%Y-%m-%d %H:%M` pattern over the input. -/
def strptimeScan (s : List Char) : Option PyDateTime :=
  (yearAlts s).findSome? fun yp =>
    (matchLit '-' yp.2).bind fun r2 =>
      (monthAlts r2).findSome? fun mp =>
        (matchLit '-' mp.2).bind fun r4 =>
          (dayAlts r4).findSome? fun dp =>
            (matchLit ' ' dp.2).bind fun r6 =>
              (hourAlts r6).findSome? fun hp =>
                (matchLit ':' hp.2).bind fun r8 =>
                  (minuteAlts r8).findSome? fun np =>
                    if np.2 = [] then some ⟨yp.1, mp.1, dp.1, hp.1, np.1⟩ else none

/-- Gregorian leap-year rule used by `datetime`. -/
def isLeapYear (y : Nat) : Bool :=
  decide (y % 4 = 0 ∧ (y % 100 ≠ 0 ∨ y % 400 = 0))

/-- Number of days in a month, as validated by the `datetime` constructor. -/
def daysInMonth (y m : Nat) : Nat :=
  if m = 2 then (if isLeapYear y then 29 else 28)
  else if m = 4 ∨ m = 6 ∨ m = 9 ∨ m = 11 then 30
  else 31

/-- `datetime.strptime(s, "%Y-%m-%d %H:%M")`, returning `none` where CPython
raises `ValueError` (pattern mismatch, leftover input, or calendar-invalid
date such as a February 30th or year 0000). -/
def pyStrptime_YmdHM (s : String) : Option PyDateTime :=
  (strptimeScan s.toList).bind fun dt =>
    if 1 ≤ dt.year ∧ dt.day ≤ daysInMonth dt.year dt.month then some dt else none

/-! ### `strftime` for the two formats used by the script -/

/-- Zero-pad to two digits. -/
def pad2 (n : Nat) : String :=
  if n < 10 then "0" ++ toString n else toString n

/-- Zero-pad to four digits (CPython documents `%Y` as zero-padded, e.g. `0001`). -/
def pad4 (n : Nat) : String :=
  if n < 10 then "000" ++ toString n
  else if n < 100 then "00" ++ toString n
  else if n < 1000 then "0" ++ toString n
  else toString n

/-- `dt.strftime('%d/%m/%Y')`. -/
def strftime_dmY (dt : PyDateTime) : String :=
  pad2 dt.day ++ "/" ++ pad2 dt.month ++ "/" ++ pad4 dt.year

/-- `dt.strftime('%H:%M')`. -/
def strftime_HM (dt : PyDateTime) : String :=
  pad2 dt.hour ++ ":" ++ pad2 dt.minute

/-! ### Python `int(str)` and `float(str)` -/

/-- Greedily consume `(_?\d)*` (digits with single underscores between digits),
continuing a run whose previous character was a digit.  Returns the
accumulated value, the number of digits consumed, and the rest. -/
def munchAfterDigit : Nat → Nat → List Char → Nat × Nat × List Char
  | acc, cnt, '_' :: c :: rest =>
    if c.isDigit then munchAfterDigit (acc * 10 + digitVal c) (cnt + 1) rest
    else (acc, cnt, '_' :: c :: rest)
  | acc, cnt, c :: rest =>
    if c.isDigit then munchAfterDigit (acc * 10 + digitVal c) (cnt + 1) rest
    else (acc, cnt, c :: rest)
  | acc, cnt, [] => (acc, cnt, [])

/-- Greedily consume `\d(_?\d)*` (a leading underscore is not accepted). -/
def munchDigits (acc cnt : Nat) : List Char → Nat × Nat × List Char
  | c :: rest =>
    if c.isDigit then munchAfterDigit (acc * 10 + digitVal c) (cnt + 1) rest
    else (acc, cnt, c :: rest)
  | [] => (acc, cnt, [])

/-- A full-string digit run, as accepted by `int()` after sign removal. -/
def udigitsAll (cs : List Char) : Option Nat :=
  match munchDigits 0 0 cs with
  | (v, cnt, rest) => if cnt ≠ 0 ∧ rest = [] then some v else none

/-- Python `int(s)` on a string: optional surrounding whitespace, optional
sign, then decimal digits (with underscores between digits); `none` where
CPython raises `ValueError`. -/
def pyInt? (s : String) : Option Int :=
  match (pyStrip s).toList with
  | '+' :: rest => (udigitsAll rest).map fun n => (n : Int)
  | '-' :: rest => (udigitsAll rest).map fun n => -(n : Int)
  | cs => (udigitsAll cs).map fun n => (n : Int)

/-- The exact value of a Python float literal, kept in decimal form:
the value is `mant * 10 ^ exp10`.  (An exact representation; nothing of
interest in the script depends on IEEE rounding, see the header note.) -/
structure PyFloat where
  mant : Int
  exp10 : Int
deriving DecidableEq, Repr

/-- The unsigned body of a Python float literal:
`digits [. [digits]] [e[sign]digits]` or `. digits …`, underscores allowed
between digits only.  Returns the decimal mantissa/exponent value. -/
def pyFloatBody (cs : List Char) : Option PyFloat :=
  match munchDigits 0 0 cs with
  | (ipVal, ipCnt, r1) =>
    match (match r1 with
           | '.' :: rf => munchDigits 0 0 rf
           | _ => (0, 0, r1) : Nat × Nat × List Char) with
    | (frVal, frCnt, r2) =>
      if ipCnt + frCnt = 0 then none
      else
        let mant : Int := (ipVal * 10 ^ frCnt + frVal : Nat)
        match r2 with
        | [] => some ⟨mant, -(frCnt : Int)⟩
        | e :: r3 =>
          if e = 'e' ∨ e = 'E' then
            match (match r3 with
                   | '+' :: r4 => ((1 : Int), r4)
                   | '-' :: r4 => ((-1 : Int), r4)
                   | _ => ((1 : Int), r3) : Int × List Char) with
            | (sgn, r4) =>
              match munchDigits 0 0 r4 with
              | (expVal, expCnt, r5) =>
                if expCnt ≠ 0 ∧ r5 = [] then
                  some ⟨mant, sgn * (expVal : Int) - (frCnt : Int)⟩
                else none
          else none

/-- Whether the literal's magnitude reaches the IEEE double overflow range
(at least `2 ^ 1024`), where `float()` yields an infinity and the script's
subsequent `int()` raises. -/
def pyFloatOverflows (v : PyFloat) : Bool :=
  match v.exp10 with
  | Int.ofNat k => decide (2 ^ 1024 ≤ v.mant.natAbs * 10 ^ k)
  | Int.negSucc k => decide (2 ^ 1024 * 10 ^ (k + 1) ≤ v.mant.natAbs)

/-- Python `float(s)` restricted to finite results, as an exact decimal
value; `none` where CPython's `int(float(s))` would raise (malformed
literal, `inf`/`nan` spellings, or overflow to infinity). -/
def pyFloat? (s : String) : Option PyFloat :=
  let signed : Option PyFloat :=
    match (pyStrip s).toList with
    | '+' :: rest => pyFloatBody rest
    | '-' :: rest => (pyFloatBody rest).map fun v => ⟨-v.mant, v.exp10⟩
    | cs => pyFloatBody cs
  signed.bind fun v => if pyFloatOverflows v then none else some v

/-- Truncation toward zero: the effect of Python `int()` on a finite float,
here on its exact decimal model. -/
def pyFloatTrunc (v : PyFloat) : Int :=
  match v.exp10 with
  | Int.ofNat k => v.mant * (10 : Int) ^ k
  | Int.negSucc k => v.mant.tdiv ((10 : Int) ^ (k + 1))

/-! ### `textwrap.dedent` -/

/-- Characters counted as indentation by `textwrap.dedent`. -/
def isTabSpace (c : Char) : Bool := c = ' ' || c = '\t'

/-- Longest common prefix of two character lists. -/
def commonPrefix : List Char → List Char → List Char
  | a :: as, b :: bs => if a = b then a :: commonPrefix as bs else []
  | _, _ => []

/-- A line that contains at least one non-indentation character
(these are the lines whose indentation contributes to the margin). -/
def lineHasContent (l : List Char) : Bool := l.any fun c => !(isTabSpace c)

/-- Remove the margin from a line that starts with it (`re.sub('(?m)^margin', '')`). -/
def dedentLine (margin l : List Char) : List Char :=
  if margin.isPrefixOf l then l.drop margin.length else l

/-- `text.split('\n')` on a character list. -/
def splitNl : List Char → List (List Char)
  | [] => [[]]
  | c :: rest =>
    if c = '\n' then [] :: splitNl rest
    else
      match splitNl rest with
      | l :: ls => (c :: l) :: ls
      | [] => [[c]]

/-- `'\n'.join(lines)`. -/
def joinNl : List (List Char) → List Char
  | [] => []
  | [l] => l
  | l :: ls => l ++ '\n' :: joinNl ls

/-- `textwrap.dedent`: normalise whitespace-only lines to empty, compute the
longest common leading `[ \t]*` of all content lines, and strip it. -/
def dedent (s : String) : String :=
  let lines := (splitNl s.toList).map fun l =>
    if l ≠ [] ∧ l.all isTabSpace = true then [] else l
  let margin : List Char :=
    match (lines.filter lineHasContent).map fun l => l.takeWhile isTabSpace with
    | [] => []
    | m :: ms => ms.foldl commonPrefix m
  ⟨joinNl (lines.map (dedentLine margin))⟩

/-! ### Data model -/

/-- Modelled from the spec: the destination fillup record is the
`LubeloggerFillup` class of `lubelogger.py`, which is not among the provided
sources.  Its fields are the ones §3 (DATA MODEL) lists and the converter
populates; per the §3 invariant, equality is full-field equality, obtained
here by `DecidableEq` (this is the equality Python set membership uses in
`process_fillups`). -/
structure LubeloggerFillup where
  date : String
  odometer : Int
  fuel_consumed : String
  cost : String
  is_fill_to_full : Bool
  missed_fuel_up : Bool
  notes : String
deriving DecidableEq, Repr

/-- One row of the Fuelio CSV as produced by `csv.DictReader` with the single
header column `## Vehicle`: `vehicle` is the value of `row.get("## Vehicle")`
(`none` models a missing value, for which `strptime` raises `TypeError`), and
`extra` is the list of unnamed positional fields stored under the `None`
rest-key (`row[None][i]`; a missing index raises). -/
structure FuelioRow where
  vehicle : Option String
  extra : List String
deriving DecidableEq, Repr

/-- The Python exceptions the modelled code can raise.  Exception classes the
script never distinguishes are collapsed: out-of-range access to the
positional fields is `indexError`, malformed numeric strings are
`valueError`, `strptime(None, …)` is `typeError`, and reading the add-loop
variable `new_fill` before the loop ever ran would be `nameError`. -/
inductive PyErr where
  | valueError
  | typeError
  | indexError
  | nameError
deriving DecidableEq, Repr

/-! ### `filter_fuelio_fillups` (main.py lines 42-52) -/

/-- Whether a row would be kept by the filter: its `## Vehicle` value is
present and matches the `%Y-%m-%d %H:%M` pattern. -/
def rowParses (r : FuelioRow) : Bool :=
  match r.vehicle with
  | some s => (pyStrptime_YmdHM s).isSome
  | none => false

/-- `filter_fuelio_fillups`: keep the rows whose `## Vehicle` value parses
with `strptime(_, "%Y-%m-%d %H:%M")`; a `ValueError` from `strptime` is
caught and the row skipped, but the `TypeError` raised when the value is
missing (`None`) is not caught and aborts the whole call. -/
def filter_fuelio_fillups : List FuelioRow → Except PyErr (List FuelioRow)
  | [] => Except.ok []
  | r :: rs =>
    match r.vehicle with
    | none => Except.error PyErr.typeError
    | some s =>
      if (pyStrptime_YmdHM s).isSome then
        (filter_fuelio_fillups rs).map fun l => r :: l
      else
        filter_fuelio_fillups rs

/-! ### `lubelogger_converter` (main.py lines 55-78) -/

/-- Indentation of the f-string body inside `dedent(...)` in the source. -/
def sp12 : String := "            "

/-- The f-string at main.py lines 58-64, before `dedent`/`strip`:
station name (already `.strip()`ed), the map link built from positional
fields 5 and 6, and the fill time. -/
def notesTemplate (station lat lng time : String) : String :=
  "\n" ++ sp12 ++ "Fuel station: " ++ station ++ "\n\n" ++ sp12 ++ "Location: ["
    ++ lat ++ "," ++ lng ++ "](https://www.google.com/maps/place/" ++ lat ++ ","
    ++ lng ++ ")" ++ "\n\n" ++ sp12 ++ "Time: " ++ time

/-- The complete notes text: the dedented, stripped template, plus the
"Fuelio notes" section when positional field 8 is a non-empty (truthy)
string. -/
def buildNotes (st lat lng n8 : String) (dt : PyDateTime) : String :=
  let base := pyStrip (dedent (notesTemplate (pyStrip st) lat lng (strftime_HM dt)))
  if n8 ≠ "" then base ++ "\n\n###### Fuelio notes:\n\n" ++ n8 else base

/-- `lubelogger_converter`: converts one Fuelio row to a `LubeloggerFillup`,
following the source's evaluation order: `strptime` on the `## Vehicle`
value, the notes f-string (positional fields 7, 5, 6, then the truthiness
test on field 8), then the constructor arguments (`strftime('%d/%m/%Y')`,
`int(float(field 0))`, fields 1 and 3 passed through as strings,
`int(field 2) == 1`, `int(field 9) == 1`).  Any Python exception along the
way is returned as `Except.error`. -/
def lubelogger_converter (fillup : FuelioRow) : Except PyErr LubeloggerFillup :=
  match fillup.vehicle with
  | none => Except.error PyErr.typeError
  | some ts =>
    match pyStrptime_YmdHM ts with
    | none => Except.error PyErr.valueError
    | some dt =>
      match fillup.extra.get? 7, fillup.extra.get? 5, fillup.extra.get? 6,
            fillup.extra.get? 8 with
      | some st, some lat, some lng, some n8 =>
        match fillup.extra.get? 0 with
        | some f0 =>
          match pyFloat? f0 with
          | some v =>
            match fillup.extra.get? 1, fillup.extra.get? 3 with
            | some f1, some f3 =>
              match fillup.extra.get? 2 with
              | some f2 =>
                match pyInt? f2 with
                | some i2 =>
                  match fillup.extra.get? 9 with
                  | some f9 =>
                    match pyInt? f9 with
                    | some i9 =>
                      Except.ok
                        { date := strftime_dmY dt
                          odometer := pyFloatTrunc v
                          fuel_consumed := f1
                          cost := f3
                          is_fill_to_full := decide (i2 = 1)
                          missed_fuel_up := decide (i9 = 1)
                          notes := buildNotes st lat lng n8 dt }
                    | none => Except.error PyErr.valueError
                  | none => Except.error PyErr.indexError
                | none => Except.error PyErr.valueError
              | none => Except.error PyErr.indexError
            | _, _ => Except.error PyErr.indexError
          | none => Except.error PyErr.valueError
        | none => Except.error PyErr.indexError
      | _, _, _, _ => Except.error PyErr.indexError

/-! ### `process_fillups` (main.py lines 101-144)

Python `set` values are modelled as duplicate-free lists and the hash-order
iteration of a set is determinised: `set(xs)` is `xs.dedup`, `s.union(t)`
iterates `s` then the new elements of `t`, `s.difference(t)` keeps `s`'s
order.  All claims about this function are stated via membership or via the
*last* element of an iteration, which a determinisation preserves faithfully
(no claim depends on a particular hash order). -/

/-- `s.union(t)` on duplicate-free lists. -/
def pyUnion (a b : List LubeloggerFillup) : List LubeloggerFillup :=
  a ++ b.filter fun x => decide (x ∉ a)

/-- `s.difference(t)`. -/
def pyDiff (a b : List LubeloggerFillup) : List LubeloggerFillup :=
  a.filter fun x => decide (x ∉ b)

/-- main.py lines 115-117: the set the script actually iterates to add,
`unique_fuelio_fills.union(lubelog_fills.difference(unique_fuelio_fills))`. -/
def new_ll_fills_of (uff ll : List LubeloggerFillup) : List LubeloggerFillup :=
  pyUnion uff (pyDiff ll uff)

/-- The reconciliation rule as the spec states it (§4.2 step 1):
`toAdd = incoming \ existing`. -/
def specToAdd (incoming existing : List LubeloggerFillup) : List LubeloggerFillup :=
  pyDiff incoming existing

/-- Modelled from the spec: the field values a `LubeloggerFillup` yields when
iterated (`for key, value in fill`) and indexed (`fill[key]`) in the
duplicate-reporting loop; this protocol lives in `lubelogger.py`, which is
not among the provided sources.  §3's field list fixes the keys and the
value types. -/
inductive FieldVal where
  | str (v : String)
  | int (v : Int)
  | bool (v : Bool)
deriving DecidableEq, Repr

/-- The observable actions of one `process_fillups` run: the destination
write (`lubelogger.add_fillup`) and each of the log lines, in program
order. -/
inductive Event where
  | addFillup (vehicleId : String) (f : LubeloggerFillup)
  | infoDryRun (date : String)
  | warnDuplicate (date : String)
  | warnPatchNote
  | debugExisting (f : LubeloggerFillup)
  | debugIncoming (f : LubeloggerFillup)
  | warnFieldDiff (key : String) (oldVal newVal : FieldVal)
  | infoUpToDate
deriving DecidableEq, Repr

/-- Modelled from the spec: the ordered `(key, value)` pairs of a fillup,
in the §3 field order; used for both iteration and keyed access. -/
def fillupItems (f : LubeloggerFillup) : List (String × FieldVal) :=
  [(("date" : String), FieldVal.str f.date),
   (("odometer" : String), FieldVal.int f.odometer),
   (("fuel_consumed" : String), FieldVal.str f.fuel_consumed),
   (("cost" : String), FieldVal.str f.cost),
   (("is_fill_to_full" : String), FieldVal.bool f.is_fill_to_full),
   (("missed_fuel_up" : String), FieldVal.bool f.missed_fuel_up),
   (("notes" : String), FieldVal.str f.notes)]

/-- main.py lines 140-142: warn about each key whose value differs between
the incoming and the existing fillup of a zipped pair. -/
def fieldDiffs (newF oldF : LubeloggerFillup) : List Event :=
  (fillupItems newF).filterMap fun kv =>
    match (fillupItems oldF).lookup kv.1 with
    | some ov => if kv.2 ≠ ov then some (Event.warnFieldDiff kv.1 ov kv.2) else none
    | none => none

/-- main.py lines 127-142: the log lines of one iteration of the
duplicate-reporting loop.  `nf` is the current binding of `new_fill` — the
variable left over from the already-completed add loop — which is what line
129 actually reads for the reported date. -/
def dupBlock (nf : LubeloggerFillup) (p : LubeloggerFillup × LubeloggerFillup) :
    List Event :=
  Event.warnDuplicate nf.date :: Event.warnPatchNote ::
    Event.debugExisting p.1 :: Event.debugIncoming p.2 :: fieldDiffs p.2 p.1

/-- main.py lines 120-124: one iteration of the add loop. -/
def addEvent (vid : String) (dry : Bool) (f : LubeloggerFillup) : Event :=
  if dry then Event.infoDryRun f.date else Event.addFillup vid f

/-- main.py lines 143-144: the closing "up to date" message. -/
def upToDateEvents (newll : List LubeloggerFillup) : List Event :=
  if newll.isEmpty then [Event.infoUpToDate] else []

/-- main.py lines 110-144 after the conversion step: the reconciliation and
reporting on the already-converted incoming set `uff` and the existing set
`ll`.  The add loop (lines 120-124) leaves `new_fill` bound to the last
fillup it iterated, which the duplicate-reporting loop (lines 126-142) then
reads; if the add loop never ran, reading `new_fill` there would raise
`NameError`. -/
def processCore (uff ll : List LubeloggerFillup) (vid : String) (dry : Bool) :
    Except PyErr (List Event) :=
  match (new_ll_fills_of uff ll).getLast? with
  | some nf =>
    Except.ok ((new_ll_fills_of uff ll).map (addEvent vid dry)
      ++ (((pyUnion ll uff).zip (pyUnion uff ll)).map (dupBlock nf)).flatten
      ++ upToDateEvents (new_ll_fills_of uff ll))
  | none =>
    if ((pyUnion ll uff).zip (pyUnion uff ll)).isEmpty then
      Except.ok ((new_ll_fills_of uff ll).map (addEvent vid dry)
        ++ upToDateEvents (new_ll_fills_of uff ll))
    else Except.error PyErr.nameError

/-- `process_fillups`: convert every incoming row (line 110; a conversion
error propagates), collapse to a set, and run the reconciliation.
`lubelog_fills` is the set fetched from the destination, `vid` the
configured `lubelogger_vehicle_id`, `dry_run` the CLI flag. -/
def process_fillups (fuelio_fills : List FuelioRow) (vid : String)
    (lubelog_fills : List LubeloggerFillup) (dry_run : Bool) :
    Except PyErr (List Event) :=
  match fuelio_fills.mapM lubelogger_converter with
  | Except.error e => Except.error e
  | Except.ok conv => processCore conv.dedup lubelog_fills vid dry_run

/-! ### Concrete sample data used by the claim evaluations and witnesses -/

/-- A well-formed Fuelio CSV row (timestamp `2024-01-01 10:00`). -/
def row0 : FuelioRow :=
  { vehicle := some "2024-01-01 10:00"
    extra := ["1000", "10.5", "1", "20.00", "", "51.5", "-0.1", "Shell", "", "0"] }

/-- A second well-formed Fuelio CSV row (timestamp `2024-01-02 11:30`),
with a non-empty free-text notes field and a missed fuel-up marker. -/
def row1 : FuelioRow :=
  { vehicle := some "2024-01-02 11:30"
    extra := ["2000", "20.5", "1", "40.00", "", "51.5", "-0.1", "BP", "note!", "1"] }

/-- A row whose timestamp field does not match the pattern. -/
def rowNoParse : FuelioRow := { vehicle := some "not-a-date", extra := [] }

/-- A row whose timestamp parses but whose odometer field (index 0) is not a
number. -/
def rowBadNum : FuelioRow :=
  { vehicle := some "2024-01-01 10:00"
    extra := ["x", "", "1", "", "", "", "", "", "", "0"] }

/-- A row whose `## Vehicle` value is missing (Python `None`). -/
def rowNone : FuelioRow := { vehicle := none, extra := [] }

/-- The fillup `lubelogger_converter` produces from `row0`. -/
def F0 : LubeloggerFillup :=
  { date := "01/01/2024", odometer := 1000, fuel_consumed := "10.5", cost := "20.00",
    is_fill_to_full := true, missed_fuel_up := false,
    notes := "Fuel station: Shell\n\nLocation: [51.5,-0.1](https://www.google.com/maps/place/51.5,-0.1)\n\nTime: 10:00" }

/-- The fillup `lubelogger_converter` produces from `row1`. -/
def F1 : LubeloggerFillup :=
  { date := "02/01/2024", odometer := 2000, fuel_consumed := "20.5", cost := "40.00",
    is_fill_to_full := true, missed_fuel_up := true,
    notes := "Fuel station: BP\n\nLocation: [51.5,-0.1](https://www.google.com/maps/place/51.5,-0.1)\n\nTime: 11:30\n\n###### Fuelio notes:\n\nnote!" }

/-- The event trace of `process_fillups [row0] "veh" [] true`. -/
def traceDryOne : List Event :=
  [Event.infoDryRun ("01/01/2024"), Event.warnDuplicate ("01/01/2024"),
   Event.warnPatchNote, Event.debugExisting F0, Event.debugIncoming F0]

/-- The event trace of `process_fillups [row0, row1] "veh" [] true`. -/
def traceDryTwo : List Event :=
  [Event.infoDryRun ("01/01/2024"), Event.infoDryRun ("02/01/2024"),
   Event.warnDuplicate ("02/01/2024"), Event.warnPatchNote,
   Event.debugExisting F0, Event.debugIncoming F0,
   Event.warnDuplicate ("02/01/2024"), Event.warnPatchNote,
   Event.debugExisting F1, Event.debugIncoming F1]

/-- The event trace of `process_fillups [row0] "veh" [F0] false`. -/
def traceEqualSets : List Event :=
  [Event.addFillup ("veh") F0, Event.warnDuplicate ("01/01/2024"),
   Event.warnPatchNote, Event.debugExisting F0, Event.debugIncoming F0]

/-! ### Helper lemmas about the converter and the event traces -/

/-- Unfolding of `lubelogger_converter` on a row whose timestamp parses and
whose positional fields are all present and numerically well-formed. -/
theorem converter_ok (r : FuelioRow) (s : String) (dt : PyDateTime)
    (st lat lng n8 f0 : String) (v : PyFloat) (f1 f3 f2 : String) (i2 : Int)
    (f9 : String) (i9 : Int)
    (hs : r.vehicle = some s) (hdt : pyStrptime_YmdHM s = some dt)
    (h7 : r.extra.get? 7 = some st) (h5 : r.extra.get? 5 = some lat)
    (h6 : r.extra.get? 6 = some lng) (h8 : r.extra.get? 8 = some n8)
    (h0 : r.extra.get? 0 = some f0) (hv : pyFloat? f0 = some v)
    (h1 : r.extra.get? 1 = some f1) (h3 : r.extra.get? 3 = some f3)
    (h2 : r.extra.get? 2 = some f2) (hi2 : pyInt? f2 = some i2)
    (h9 : r.extra.get? 9 = some f9) (hi9 : pyInt? f9 = some i9) :
    lubelogger_converter r = Except.ok
      { date := strftime_dmY dt
        odometer := pyFloatTrunc v
        fuel_consumed := f1
        cost := f3
        is_fill_to_full := decide (i2 = 1)
        missed_fuel_up := decide (i9 = 1)
        notes := buildNotes st lat lng n8 dt } := by
  simp only [lubelogger_converter, hs, hdt, h7, h5, h6, h8, h0, hv, h1, h3, h2,
    hi2, h9, hi9]

/-- Every event emitted by the inner key-comparison loop is a field-diff
warning. -/
theorem mem_fieldDiffs_shape (a b : LubeloggerFillup) (e : Event)
    (h : e ∈ fieldDiffs a b) : ∃ k ov nv, e = Event.warnFieldDiff k ov nv := by
  simp only [fieldDiffs, List.mem_filterMap] at h
  obtain ⟨kv, _, hkv⟩ := h
  rcases hlk : (fillupItems b).lookup kv.1 with _ | ov <;> simp only [hlk] at hkv
  · cases hkv
  · by_cases hne : kv.2 = ov
    · rw [if_neg (not_not_intro hne)] at hkv
      cases hkv
    · rw [if_pos hne] at hkv
      exact ⟨kv.1, ov, kv.2, (Option.some.inj hkv).symm⟩

/-- Every event of one duplicate-reporting iteration is one of the four fixed
log lines or a field-diff warning; in particular the reported date is always
`nf.date`, the date of the stale `new_fill` binding. -/
theorem mem_dupBlock_shape (nf : LubeloggerFillup)
    (p : LubeloggerFillup × LubeloggerFillup) (e : Event) (h : e ∈ dupBlock nf p) :
    e = Event.warnDuplicate nf.date ∨ e = Event.warnPatchNote ∨
      e = Event.debugExisting p.1 ∨ e = Event.debugIncoming p.2 ∨
      ∃ k ov nv, e = Event.warnFieldDiff k ov nv := by
  simp only [dupBlock, List.mem_cons] at h
  rcases h with h | h | h | h | h
  · exact Or.inl h
  · exact Or.inr (Or.inl h)
  · exact Or.inr (Or.inr (Or.inl h))
  · exact Or.inr (Or.inr (Or.inr (Or.inl h)))
  · exact Or.inr (Or.inr (Or.inr (Or.inr (mem_fieldDiffs_shape _ _ _ h))))

/-- The add loop never logs a duplicate warning. -/
theorem warnDup_not_mem_addEvents (vid : String) (dry : Bool)
    (l : List LubeloggerFillup) (d : String) :
    Event.warnDuplicate d ∉ l.map (addEvent vid dry) := by
  intro h
  rw [List.mem_map] at h
  obtain ⟨x, _, hx⟩ := h
  cases dry <;> simp [addEvent] at hx

/-- The closing message never logs a duplicate warning. -/
theorem warnDup_not_mem_upToDate (l : List LubeloggerFillup) (d : String) :
    Event.warnDuplicate d ∉ upToDateEvents l := by
  intro h
  unfold upToDateEvents at h
  by_cases he : l.isEmpty = true
  · rw [if_pos he] at h
    simp only [List.mem_singleton] at h
    exact Event.noConfusion h
  · rw [if_neg he] at h
    cases h

/-- Any duplicate warning emitted across all duplicate-reporting iterations
carries the date of the stale `new_fill` binding. -/
theorem warnDup_in_blocks_date (nf : LubeloggerFillup)
    (pairs : List (LubeloggerFillup × LubeloggerFillup)) (d : String)
    (h : Event.warnDuplicate d ∈ (pairs.map (dupBlock nf)).flatten) :
    d = nf.date := by
  rw [List.mem_flatten] at h
  obtain ⟨bl, hbl, hmem⟩ := h
  rw [List.mem_map] at hbl
  obtain ⟨p, _, hpeq⟩ := hbl
  subst hpeq
  rcases mem_dupBlock_shape nf p _ hmem with h | h | h | h | ⟨k, ov, nv, h⟩
  · exact Event.warnDuplicate.inj h
  · exact Event.noConfusion h
  · exact Event.noConfusion h
  · exact Event.noConfusion h
  · exact Event.noConfusion h

/-- The dry-run add loop emits no destination write. -/
theorem addFillup_not_mem_dryAdds (vid : String) (l : List LubeloggerFillup)
    (v : String) (f : LubeloggerFillup) :
    Event.addFillup v f ∉ l.map (addEvent vid true) := by
  intro h
  rw [List.mem_map] at h
  obtain ⟨x, _, hx⟩ := h
  simp [addEvent] at hx

/-- The duplicate-reporting loop emits no destination write. -/
theorem addFillup_not_mem_blocks (nf : LubeloggerFillup)
    (pairs : List (LubeloggerFillup × LubeloggerFillup)) (v : String)
    (f : LubeloggerFillup) :
    Event.addFillup v f ∉ (pairs.map (dupBlock nf)).flatten := by
  intro h
  rw [List.mem_flatten] at h
  obtain ⟨bl, hbl, hmem⟩ := h
  rw [List.mem_map] at hbl
  obtain ⟨p, _, hpeq⟩ := hbl
  subst hpeq
  rcases mem_dupBlock_shape nf p _ hmem with h | h | h | h | ⟨k, ov, nv, h⟩ <;>
    exact Event.noConfusion h

/-- The closing message emits no destination write. -/
theorem addFillup_not_mem_upToDate (l : List LubeloggerFillup) (v : String)
    (f : LubeloggerFillup) :
    Event.addFillup v f ∉ upToDateEvents l := by
  intro h
  unfold upToDateEvents at h
  by_cases he : l.isEmpty = true
  · rw [if_pos he] at h
    simp only [List.mem_singleton] at h
    exact Event.noConfusion h
  · rw [if_neg he] at h
    cases h

/-! ### The claims -/

/-- C1: the claim says the set the Reconciler computes to add equals
`incoming \ existing`.  The code (main.py lines 115-117) instead computes
`incoming ∪ (existing \ incoming) = incoming ∪ existing`: evaluated at
`incoming = {F1}`, `existing = {F0}`, the computed set contains the
*existing* fillup `F0`, which `incoming \ existing` does not — so the code
re-adds every existing destination record, contradicting the claim (and the
script's own "Nothing to add … up to date" message). -/
theorem C1_toAdd_not_set_difference :
    F0 ∈ new_ll_fills_of [F1] [F0] ∧ F0 ∉ specToAdd [F1] [F0] ∧
      F1 ∈ specToAdd [F1] [F0] := by
  decide

/-- C2: the claim says that with `incoming = existing = {F}` the computed
to-add set is empty, no destination write happens and the run reports
"up to date".  Evaluating the code at that very input: the run performs the
destination write `add_fillup("veh", F0)` and never emits the up-to-date
message, because the computed set is `{F0}`, not empty. -/
theorem C2_equal_sets_still_write :
    process_fillups [row0] ("veh") [F0] false = Except.ok traceEqualSets ∧
      Event.addFillup ("veh") F0 ∈ traceEqualSets ∧
      Event.infoUpToDate ∉ traceEqualSets :=
  ⟨rfl, by decide, by decide⟩

/-- C3: the claim says a second run with `existing' = existing ∪ toAdd₁` has
an empty to-add set.  Evaluating the code at `incoming = {F0}`,
`existing = {}`: the first run computes `{F0}`, and after reflecting it into
`existing`, the second run computes `{F0}` again — not empty, so the run is
not idempotent. -/
theorem C3_second_run_not_empty :
    new_ll_fills_of [F0] [] = [F0] ∧
      new_ll_fills_of [F0] (pyUnion [] (new_ll_fills_of [F0] [])) = [F0] ∧
      F0 ∈ new_ll_fills_of [F0] (pyUnion [] (new_ll_fills_of [F0] [])) := by
  decide

/-- C4: the claim says the duplicate-conflict reporting path is never
executed.  Evaluating the code at `incoming = {F0}`, `existing = {}` (dry
run): the loop at main.py line 126 zips `existing ∪ incoming` with
`incoming ∪ existing` (both nonempty here), so a "Found existing fillup"
warning is emitted — the path is reachable on every run with any fillup at
all. -/
theorem C4_duplicate_warning_reachable :
    process_fillups [row0] ("veh") [] true = Except.ok traceDryOne ∧
      Event.warnDuplicate ("01/01/2024") ∈ traceDryOne :=
  ⟨rfl, by decide⟩

/-- C5: in every duplicate-reporting iteration, the date in the logged
"Found existing fillup on …" warning is read from `new_fill` — the loop
variable left over from the already-completed add loop, i.e. the last fillup
that loop iterated — not from the current duplicate pair; consequently every
duplicate warning of a run carries that same date. -/
theorem C5_duplicate_log_date_stale (rows : List FuelioRow) (vid : String)
    (ll : List LubeloggerFillup) (dry : Bool) (conv : List LubeloggerFillup)
    (events : List Event) (d : String)
    (hconv : rows.mapM lubelogger_converter = Except.ok conv)
    (hrun : process_fillups rows vid ll dry = Except.ok events)
    (hd : Event.warnDuplicate d ∈ events) :
    ∃ lastF, (new_ll_fills_of conv.dedup ll).getLast? = some lastF ∧
      d = lastF.date := by
  simp only [process_fillups, hconv] at hrun
  unfold processCore at hrun
  split at hrun
  case _ nf hlast =>
    injection hrun with hev
    subst hev
    refine ⟨nf, hlast, ?_⟩
    simp only [List.mem_append] at hd
    rcases hd with (hd | hd) | hd
    · exact absurd hd (warnDup_not_mem_addEvents vid dry _ d)
    · exact warnDup_in_blocks_date nf _ d hd
    · exact absurd hd (warnDup_not_mem_upToDate _ d)
  case _ hlast =>
    split at hrun
    · injection hrun with hev
      subst hev
      exfalso
      simp only [List.mem_append] at hd
      rcases hd with hd | hd
      · exact warnDup_not_mem_addEvents vid dry _ d hd
      · exact warnDup_not_mem_upToDate _ d hd
    · cases hrun

/-- Witness for C5 at a concrete input: two incoming fillups, empty
destination, dry run; both duplicate warnings in the trace carry
`02/01/2024`, the date of the last fillup of the add loop, although the
reported pairs differ. -/
theorem C5_witness :
    ∃ lastF, (new_ll_fills_of ([F0, F1].dedup) []).getLast? = some lastF ∧
      ("02/01/2024" : String) = lastF.date :=
  C5_duplicate_log_date_stale [row0, row1] ("veh") [] true [F0, F1]
    traceDryTwo ("02/01/2024") rfl rfl (by decide)

/-- C6 counterexample: the claim says a record whose timestamp matches the
pattern converts without error *whatever* its positional fields.  Here the
timestamp of `rowBadNum` matches, yet conversion raises, because its
odometer field "x" is not a float (`int(float("x"))` raises `ValueError`). -/
theorem C6_counterexample_nonnumeric_field :
    (pyStrptime_YmdHM ("2024-01-01 10:00")).isSome = true ∧
      lubelogger_converter rowBadNum = Except.error PyErr.valueError :=
  ⟨rfl, rfl⟩

/-- C6 (amended): the converter signals a parse failure when the timestamp
field does not match `%Y-%m-%d %H:%M`; but that is not the *only* failure
condition — conversion of a record with a matching timestamp succeeds
provided the row also has values at the positional indices it uses (0-3 and
5-9) and its numeric fields are well-formed: index 0 parses as a Python
float and indices 2 and 9 parse as Python ints. -/
theorem C6_conversion_failure_conditions :
    (∀ (r : FuelioRow) (s : String), r.vehicle = some s →
      pyStrptime_YmdHM s = none →
      lubelogger_converter r = Except.error PyErr.valueError) ∧
    (∀ (r : FuelioRow) (s : String) (dt : PyDateTime) (st lat lng n8 f0 : String)
      (v : PyFloat) (f1 f3 f2 : String) (i2 : Int) (f9 : String) (i9 : Int),
      r.vehicle = some s → pyStrptime_YmdHM s = some dt →
      r.extra.get? 7 = some st → r.extra.get? 5 = some lat →
      r.extra.get? 6 = some lng → r.extra.get? 8 = some n8 →
      r.extra.get? 0 = some f0 → pyFloat? f0 = some v →
      r.extra.get? 1 = some f1 → r.extra.get? 3 = some f3 →
      r.extra.get? 2 = some f2 → pyInt? f2 = some i2 →
      r.extra.get? 9 = some f9 → pyInt? f9 = some i9 →
      ∃ f, lubelogger_converter r = Except.ok f) := by
  constructor
  · intro r s hs hdt
    simp only [lubelogger_converter, hs, hdt]
  · intro r s dt st lat lng n8 f0 v f1 f3 f2 i2 f9 i9 hs hdt h7 h5 h6 h8 h0 hv
      h1 h3 h2 hi2 h9 hi9
    exact ⟨_, converter_ok r s dt st lat lng n8 f0 v f1 f3 f2 i2 f9 i9 hs hdt
      h7 h5 h6 h8 h0 hv h1 h3 h2 hi2 h9 hi9⟩

/-- Witness for C6 at concrete inputs: a non-matching timestamp fails with
`ValueError`, and a fully well-formed row converts successfully. -/
theorem C6_witness :
    lubelogger_converter rowNoParse = Except.error PyErr.valueError ∧
      ∃ f, lubelogger_converter row0 = Except.ok f :=
  ⟨C6_conversion_failure_conditions.1 rowNoParse ("not-a-date") rfl rfl,
   C6_conversion_failure_conditions.2 row0 ("2024-01-01 10:00")
     ⟨2024, 1, 1, 10, 0⟩ ("Shell") ("51.5") ("-0.1") ("") ("1000") ⟨1000, 0⟩
     ("10.5") ("20.00") ("1") 1 ("0") 0
     rfl rfl rfl rfl rfl rfl rfl rfl rfl rfl rfl rfl rfl rfl⟩

/-- C7: on rows that all carry a timestamp value, the filter returns exactly
the rows whose timestamp parses as `%Y-%m-%d %H:%M`; rows failing the check
are silently excluded, with no error. -/
theorem C7_filter_keeps_exactly_parsing_rows (rows : List FuelioRow)
    (h : ∀ r ∈ rows, (r.vehicle).isSome = true) :
    filter_fuelio_fillups rows = Except.ok (rows.filter rowParses) := by
  induction rows with
  | nil => rfl
  | cons r rs ih =>
    obtain ⟨s, hs⟩ := Option.isSome_iff_exists.mp (h r (List.mem_cons_self r rs))
    have ih2 := ih fun x hx => h x (List.mem_cons_of_mem r hx)
    simp only [filter_fuelio_fillups, hs, List.filter_cons, rowParses]
    by_cases hp : (pyStrptime_YmdHM s).isSome = true
    · rw [if_pos hp, ih2, if_pos hp]
      rfl
    · rw [if_neg hp, ih2, if_neg hp]

/-- Witness for C7 at a concrete input: a parsing row is kept and the row
whose timestamp field is the literal string "not-a-date" is silently
excluded. -/
theorem C7_witness :
    filter_fuelio_fillups [row0, rowNoParse] =
        Except.ok ([row0, rowNoParse].filter rowParses) ∧
      [row0, rowNoParse].filter rowParses = [row0] :=
  ⟨C7_filter_keeps_exactly_parsing_rows [row0, rowNoParse] (by decide), by decide⟩

/-- C8: with the dry-run flag set, a run performs no destination
`add_fillup` call, and every fillup of the computed to-add set is reported
with a "Dry run: Would add fuel fillup from …" message carrying its date. -/
theorem C8_dry_run_no_writes (rows : List FuelioRow) (vid : String)
    (ll conv : List LubeloggerFillup) (events : List Event)
    (hconv : rows.mapM lubelogger_converter = Except.ok conv)
    (hrun : process_fillups rows vid ll true = Except.ok events) :
    (∀ v f, Event.addFillup v f ∉ events) ∧
      ∀ f ∈ new_ll_fills_of conv.dedup ll, Event.infoDryRun f.date ∈ events := by
  simp only [process_fillups, hconv] at hrun
  unfold processCore at hrun
  split at hrun
  case _ nf hlast =>
    injection hrun with hev
    subst hev
    constructor
    · intro v f h
      simp only [List.mem_append] at h
      rcases h with (h | h) | h
      · exact addFillup_not_mem_dryAdds vid _ v f h
      · exact addFillup_not_mem_blocks nf _ v f h
      · exact addFillup_not_mem_upToDate _ v f h
    · intro f hf
      refine List.mem_append.mpr (Or.inl (List.mem_append.mpr (Or.inl ?_)))
      exact List.mem_map.mpr ⟨f, hf, rfl⟩
  case _ hlast =>
    split at hrun
    · injection hrun with hev
      subst hev
      constructor
      · intro v f h
        simp only [List.mem_append] at h
        rcases h with h | h
        · exact addFillup_not_mem_dryAdds vid _ v f h
        · exact addFillup_not_mem_upToDate _ v f h
      · intro f hf
        exact List.mem_append.mpr (Or.inl (List.mem_map.mpr ⟨f, hf, rfl⟩))
    · cases hrun

/-- Witness for C8 at a concrete input: one incoming fillup, empty
destination, dry run — the trace contains no write and reports the
candidate's date as "would be added". -/
theorem C8_witness :
    (∀ v f, Event.addFillup v f ∉ traceDryOne) ∧
      ∀ f ∈ new_ll_fills_of ([F0].dedup) [],
        Event.infoDryRun f.date ∈ traceDryOne :=
  C8_dry_run_no_writes [row0] ("veh") [] [F0] traceDryOne rfl rfl

/-- C9: for every record the converter accepts, the produced fillup follows
the positional mapping: index 0 parsed as a float and truncated to an
integer gives `odometer`, index 1 gives `fuel_consumed`, index 2 being "1"
gives `is_fill_to_full = true`, index 3 gives `cost`, index 9 being "1"
gives `missed_fuel_up = true`, and `date` is the record's timestamp
formatted as `DD/MM/YYYY` (`strftime('%d/%m/%Y')`). -/
theorem C9_field_mapping (r : FuelioRow) (s : String) (dt : PyDateTime)
    (st lat lng n8 f0 : String) (v : PyFloat) (f1 f3 f2 : String) (i2 : Int)
    (f9 : String) (i9 : Int) (f : LubeloggerFillup)
    (hs : r.vehicle = some s) (hdt : pyStrptime_YmdHM s = some dt)
    (h7 : r.extra.get? 7 = some st) (h5 : r.extra.get? 5 = some lat)
    (h6 : r.extra.get? 6 = some lng) (h8 : r.extra.get? 8 = some n8)
    (h0 : r.extra.get? 0 = some f0) (hv : pyFloat? f0 = some v)
    (h1 : r.extra.get? 1 = some f1) (h3 : r.extra.get? 3 = some f3)
    (h2 : r.extra.get? 2 = some f2) (hi2 : pyInt? f2 = some i2)
    (h9 : r.extra.get? 9 = some f9) (hi9 : pyInt? f9 = some i9)
    (hok : lubelogger_converter r = Except.ok f) :
    f.odometer = pyFloatTrunc v ∧ f.fuel_consumed = f1 ∧
      (f2 = "1" → f.is_fill_to_full = true) ∧ f.cost = f3 ∧
      (f9 = "1" → f.missed_fuel_up = true) ∧ f.date = strftime_dmY dt := by
  rw [converter_ok r s dt st lat lng n8 f0 v f1 f3 f2 i2 f9 i9 hs hdt h7 h5 h6
    h8 h0 hv h1 h3 h2 hi2 h9 hi9] at hok
  injection hok with hf
  subst hf
  refine ⟨rfl, rfl, ?_, rfl, ?_, rfl⟩
  · intro hone
    subst hone
    have hx : pyInt? ("1") = some 1 := rfl
    rw [hi2] at hx
    have : i2 = 1 := Option.some.inj hx
    subst this
    rfl
  · intro hone
    subst hone
    have hx : pyInt? ("1") = some 1 := rfl
    rw [hi9] at hx
    have : i9 = 1 := Option.some.inj hx
    subst this
    rfl

/-- Witness for C9 at `row0`: the accepted record's fillup fields follow the
positional mapping, and its date is `01/01/2024`. -/
theorem C9_witness :
    F0.odometer = pyFloatTrunc ⟨1000, 0⟩ ∧ F0.fuel_consumed = "10.5" ∧
      (("1" : String) = "1" → F0.is_fill_to_full = true) ∧ F0.cost = "20.00" ∧
      (("0" : String) = "1" → F0.missed_fuel_up = true) ∧
      F0.date = strftime_dmY ⟨2024, 1, 1, 10, 0⟩ :=
  C9_field_mapping row0 ("2024-01-01 10:00") ⟨2024, 1, 1, 10, 0⟩ ("Shell")
    ("51.5") ("-0.1") ("") ("1000") ⟨1000, 0⟩ ("10.5") ("20.00") ("1") 1
    ("0") 0 F0 rfl rfl rfl rfl rfl rfl rfl rfl rfl rfl rfl rfl rfl rfl rfl

/-- C10: if some row lacks a value under the `## Vehicle` key, the filter
raises an uncaught `TypeError` (its handler catches only `ValueError`) and
the whole call aborts instead of skipping the row. -/
theorem C10_missing_vehicle_value_aborts (pre post : List FuelioRow)
    (r : FuelioRow) (hpre : ∀ x ∈ pre, (x.vehicle).isSome = true)
    (hr : r.vehicle = none) :
    filter_fuelio_fillups (pre ++ r :: post) = Except.error PyErr.typeError := by
  induction pre with
  | nil =>
    simp only [List.nil_append, filter_fuelio_fillups, hr]
  | cons x xs ih =>
    obtain ⟨s, hs⟩ := Option.isSome_iff_exists.mp (hpre x (List.mem_cons_self x xs))
    have ih2 := ih fun y hy => hpre y (List.mem_cons_of_mem x hy)
    simp only [List.cons_append, filter_fuelio_fillups, hs, List.append_eq]
    by_cases hp : (pyStrptime_YmdHM s).isSome = true
    · rw [if_pos hp, ih2]
      rfl
    · rw [if_neg hp]
      exact ih2

/-- Witness for C10 at a concrete input: a good row followed by a row with a
missing timestamp value makes the filter abort with a `TypeError`. -/
theorem C10_witness :
    filter_fuelio_fillups ([row0] ++ rowNone :: []) =
      Except.error PyErr.typeError :=
  C10_missing_vehicle_value_aborts [row0] [] rowNone (by decide) rfl

end Fuelio
